import Mathlib

/-!
Verification of the mainnet-mini-mining-game backend.

Shallow embedding of the Supabase-era backend (`backend/server.py` and the
SQL functions in `backend/supabase_config.py`) of the clicker crypto-mining
game, together with proofs of the spec's claims about it.

Modelling conventions:
* All monetary quantities (`decimal(…,2)` columns, Python floats fed into
  them) are embedded as exact rationals `ℚ`; Python's `round(x, 2)` is
  embedded as round-half-even at two decimal places (`pyRound2`).
* The database rows of a single user are gathered in `UserDB`; every
  handler reads and writes rows filtered by that user's id, so one user's
  state is the whole frame of each operation.
* Timestamps are rationals (seconds since an arbitrary epoch); `now` is an
  explicit argument where the handler reads the clock.
* String case-folding (`str.upper`) is embedded on the character list with
  `Char.toUpper`, which agrees with Python on the ASCII ids at issue.
-/

namespace Mainet

/-- The `PaymentMethod` enum of `server.py`. -/
inductive PaymentMethod where
  | payeer
  | faucetpay
deriving DecidableEq, Repr

/-- The `RigType` enum of `server.py`. -/
inductive RigType where
  | basic_cpu
  | entry_gpu
  | dual_core
  | quad_core
  | gtx_miner
  | asic_basic
  | rtx_3080
  | asic_s19
  | custom_rig
  | rtx_4090
  | asic_s21
  | quantum_chip
  | ai_processor
  | fusion_reactor
  | black_hole
  | mainet_core
deriving DecidableEq, Repr

/-- One row of the `game_states` table, restricted to the columns the
handlers under verification read or write (timestamps and the JSON
settings blob carried through unchanged are modelled where touched). -/
structure GameState where
  current_level : Int
  experience_points : Int
  current_coins : ℚ
  main_balance : ℚ
  bonus_balance : ℚ
  energy : Int
  max_energy : Int
  energy_regen_rate : ℚ
  click_power : Int
  auto_mining_rate : ℚ
  total_clicks : Int
  achievements : List String
deriving DecidableEq, Repr

/-- One row of the `transaction_verifications` table (IDTX system). -/
structure VerificationRecord where
  transaction_id : String
  amount : ℚ
  currency : String
  payment_method : PaymentMethod
  status : String
  bonus_amount : ℚ
deriving DecidableEq, Repr

/-- One row of the append-only `transactions` ledger table. -/
structure Transaction where
  transaction_type : String
  amount : ℚ
  balance_before : ℚ
  balance_after : ℚ
  description : String
deriving DecidableEq, Repr

/-- One row of the `mining_rigs` table, restricted to the columns the
handlers and the offline-reward SQL function use. -/
structure MiningRig where
  rig_name : String
  rig_type : RigType
  mining_power : ℚ
  efficiency_rating : ℚ
  rarity : String
  purchase_price : ℚ
  is_active : Bool
deriving DecidableEq, Repr

/-- All rows belonging to one user: their game state, their verification
records, their ledger rows, their rigs, and the `mining_session_start_at`
anchor used by the offline-reward SQL function. -/
structure UserDB where
  gameState : GameState
  verifications : List VerificationRecord
  ledger : List Transaction
  rigs : List MiningRig
  mining_session_start_at : Option ℚ
deriving DecidableEq, Repr

/-- The initial game state inserted by `get_game_state` on first access
(server.py, `initial_state`). -/
def initial_game_state : GameState :=
  { current_level := 1
    experience_points := 0
    current_coins := 1000
    main_balance := 1000.0
    bonus_balance := 0.0
    energy := 100
    max_energy := 100
    energy_regen_rate := 1.0
    click_power := 1
    auto_mining_rate := 0.0
    total_clicks := 0
    achievements := [] }

/-! ## Python-style rounding -/

/-- Round-half-even to the nearest integer, the ideal semantics of
Python's builtin `round`. -/
def roundHalfEven (x : ℚ) : ℤ :=
  let n := ⌊x⌋
  let frac := x - n
  if frac < 1/2 then n
  else if 1/2 < frac then n + 1
  else if n % 2 = 0 then n else n + 1

/-- Python's `round(x, 2)`, on exact rationals. -/
def pyRound2 (x : ℚ) : ℚ := (roundHalfEven (x * 100) : ℚ) / 100

/-! ## IDTX verification (`POST /api/verify-transaction`, server.py 703-803) -/

/-- Request body `TransactionVerificationRequest`. -/
structure VerifyRequest where
  transaction_id : String
  payment_method : PaymentMethod
  amount : Option ℚ
  currency : String
deriving DecidableEq, Repr

/-- The JSON object the `verify-transaction` handler returns. -/
structure VerifyResult where
  transaction_id : String
  verified : Bool
  status : String
  amount : ℚ
  bonus_amount : ℚ
  message : String
deriving DecidableEq, Repr

/-- The existing-record lookup: the first `transaction_verifications` row
of this user whose `transaction_id` equals the requested one
(`.eq('user_id', …).eq('transaction_id', …)`). -/
def findVerification (db : UserDB) (tid : String) : Option VerificationRecord :=
  db.verifications.find? (fun v => v.transaction_id == tid)

/-- Python's `str.upper`, on the character list (ASCII-faithful). -/
def pyUpper (s : String) : String := ⟨s.data.map Char.toUpper⟩

/-- The simulated verification check of server.py line 726:
`len(transaction_id) >= 8 and not transaction_id.upper().startswith('INVALID')`. -/
def is_valid (tid : String) : Bool :=
  decide (8 ≤ tid.length) && !(("INVALID".data).isPrefixOf (pyUpper tid).data)

/-- Server.py line 727: `amount = request.amount or (10.0 if payeer else 5.0)`.
Python's `or` falls through on `None` and on `0.0` alike. -/
def resolveAmount (a : Option ℚ) (pm : PaymentMethod) : ℚ :=
  let dflt : ℚ := if pm = PaymentMethod.payeer then 10.0 else 5.0
  match a with
  | none => dflt
  | some x => if x = 0 then dflt else x

/-- The `verify_transaction` handler (server.py 703-803), for one user:
return the stored outcome if a record for the id already exists; otherwise
run the simulated check, and either credit `amount + round(amount*0.17, 2)`
and persist a `verified` record plus a ledger row, or persist a
`not_found` record and credit nothing. -/
def verify_transaction (db : UserDB) (req : VerifyRequest) : VerifyResult × UserDB :=
  match findVerification db req.transaction_id with
  | some verification =>
      ({ transaction_id := req.transaction_id
         verified := verification.status == "verified"
         status := verification.status
         amount := verification.amount
         bonus_amount := verification.bonus_amount
         message := "Transaction already processed" }, db)
  | none =>
      let amount := resolveAmount req.amount req.payment_method
      if is_valid req.transaction_id then
        let bonus_amount := pyRound2 (amount * 0.17)
        let record : VerificationRecord :=
          { transaction_id := req.transaction_id
            amount := amount
            currency := req.currency
            payment_method := req.payment_method
            status := "verified"
            bonus_amount := bonus_amount }
        let current_balance := db.gameState.current_coins
        let current_main := db.gameState.main_balance
        let current_bonus := db.gameState.bonus_balance
        let total_credit := amount + bonus_amount
        let new_balance := current_balance + total_credit
        let new_main := current_main + amount
        let new_bonus := current_bonus + bonus_amount
        let txn : Transaction :=
          { transaction_type := "deposit_bonus"
            amount := total_credit
            balance_before := current_balance
            balance_after := new_balance
            description := "Verified deposit: " ++ req.transaction_id ++ " + 17 percent bonus" }
        ({ transaction_id := req.transaction_id
           verified := true
           status := "verified"
           amount := amount
           bonus_amount := bonus_amount
           message := "Transaction verified" },
         { db with
             verifications := db.verifications ++ [record]
             gameState := { db.gameState with
                              current_coins := new_balance
                              main_balance := new_main
                              bonus_balance := new_bonus }
             ledger := db.ledger ++ [txn] })
      else
        let record : VerificationRecord :=
          { transaction_id := req.transaction_id
            amount := amount
            currency := req.currency
            payment_method := req.payment_method
            status := "not_found"
            bonus_amount := 0 }
        ({ transaction_id := req.transaction_id
           verified := false
           status := "not_found"
           amount := amount
           bonus_amount := 0
           message := "Transaction not found or invalid" },
         { db with verifications := db.verifications ++ [record] })

/-! ## Saving the game state (`POST /api/game/state`, server.py 543-592) -/

/-- Request body `GameStateUpdate` of server.py: every field optional, only
provided fields are written. -/
structure GameStateUpdate where
  current_level : Option Int := none
  experience_points : Option Int := none
  current_coins : Option Int := none
  main_balance : Option ℚ := none
  energy : Option Int := none
  max_energy : Option Int := none
  energy_regen_rate : Option ℚ := none
  click_power : Option Int := none
  auto_mining_rate : Option ℚ := none
  total_clicks : Option Int := none
  achievements : Option (List String) := none
deriving DecidableEq, Repr

/-- The `save_game_state` handler (server.py 543-592): each provided field
overwrites the stored one. `current_level` is clamped with `max(1, ·)`;
`experience_points`, `current_coins` and `main_balance` with `max(0, ·)`;
every other field — `energy` included — is stored exactly as sent. The
source builds an `update_data` dict and issues one row update, which this
per-field merge reproduces. -/
def save_game_state (gs : GameState) (u : GameStateUpdate) : GameState :=
  { current_level := match u.current_level with
      | some v => max 1 v
      | none => gs.current_level
    experience_points := match u.experience_points with
      | some v => max 0 v
      | none => gs.experience_points
    current_coins := match u.current_coins with
      | some v => ((max 0 v : ℤ) : ℚ)
      | none => gs.current_coins
    main_balance := match u.main_balance with
      | some v => max 0 v
      | none => gs.main_balance
    bonus_balance := gs.bonus_balance
    energy := match u.energy with
      | some v => v
      | none => gs.energy
    max_energy := match u.max_energy with
      | some v => v
      | none => gs.max_energy
    energy_regen_rate := match u.energy_regen_rate with
      | some v => v
      | none => gs.energy_regen_rate
    click_power := match u.click_power with
      | some v => v
      | none => gs.click_power
    auto_mining_rate := match u.auto_mining_rate with
      | some v => v
      | none => gs.auto_mining_rate
    total_clicks := match u.total_clicks with
      | some v => v
      | none => gs.total_clicks
    achievements := match u.achievements with
      | some v => v
      | none => gs.achievements }

/-! ## Mining-rig purchase (`POST /api/mining-rigs`, server.py 607-680) -/

/-- One entry of the `rig_configs` table in `create_mining_rig`. -/
structure RigConfig where
  power : ℚ
  efficiency : ℚ
  cost : ℚ
  rarity : String
deriving DecidableEq, Repr

/-- The `rig_configs` dict of server.py lines 614-631. -/
def rig_configs : RigType → RigConfig
  | .basic_cpu => ⟨0.5, 1.0, 100, "common"⟩
  | .entry_gpu => ⟨0.8, 1.0, 200, "common"⟩
  | .dual_core => ⟨1.2, 1.05, 300, "common"⟩
  | .quad_core => ⟨2.0, 1.1, 500, "uncommon"⟩
  | .gtx_miner => ⟨2.5, 1.15, 700, "uncommon"⟩
  | .asic_basic => ⟨3.0, 1.2, 900, "uncommon"⟩
  | .rtx_3080 => ⟨4.2, 1.25, 1500, "rare"⟩
  | .asic_s19 => ⟨5.0, 1.3, 2000, "rare"⟩
  | .custom_rig => ⟨5.8, 1.2, 2500, "rare"⟩
  | .rtx_4090 => ⟨8.5, 1.4, 4000, "epic"⟩
  | .asic_s21 => ⟨10.0, 1.5, 5000, "epic"⟩
  | .quantum_chip => ⟨12.0, 2.0, 7500, "epic"⟩
  | .ai_processor => ⟨18.0, 1.75, 12000, "legendary"⟩
  | .fusion_reactor => ⟨22.0, 2.0, 20000, "legendary"⟩
  | .black_hole => ⟨50.0, 2.0, 50000, "mythic"⟩
  | .mainet_core => ⟨100.0, 5.0, 100000, "mythic"⟩

/-- The `create_mining_rig` handler (server.py 607-680): reject with
"Insufficient balance" when `current_coins < cost`; otherwise insert the
rig, set both `current_coins` and `main_balance` to `current_coins - cost`,
and append a `purchase` ledger row of amount `-cost`. -/
def create_mining_rig (db : UserDB) (rig_name : String) (rig_type : RigType) :
    Except String MiningRig × UserDB :=
  let config := rig_configs rig_type
  if db.gameState.current_coins < config.cost then
    (.error "Insufficient balance", db)
  else
    let new_rig : MiningRig :=
      { rig_name := rig_name
        rig_type := rig_type
        mining_power := config.power
        efficiency_rating := config.efficiency
        rarity := config.rarity
        purchase_price := config.cost
        is_active := true }
    let new_balance := db.gameState.current_coins - config.cost
    let txn : Transaction :=
      { transaction_type := "purchase"
        amount := -config.cost
        balance_before := db.gameState.current_coins
        balance_after := new_balance
        description := "Purchased rig: " ++ rig_name }
    (.ok new_rig,
     { db with
         gameState := { db.gameState with
                          current_coins := new_balance
                          main_balance := new_balance }
         rigs := db.rigs ++ [new_rig]
         ledger := db.ledger ++ [txn] })

/-! ## Offline rewards (SQL `calculate_offline_rewards`,
supabase_config.py 343-378, and `GET /api/game/state`, server.py 486-541) -/

/-- The SQL expression `LEAST(EXTRACT(EPOCH FROM (now - last_session)) / 3600, 24)`:
the elapsed hours since the anchor, clamped to 24. -/
def offlineHours (last_session now : ℚ) : ℚ :=
  min ((now - last_session) / 3600) 24

/-- The SQL query `SELECT COALESCE(SUM(mining_power * efficiency_rating), 0) … WHERE
is_active = true`: total hashrate of the user's active rigs. -/
def total_hashrate (rigs : List MiningRig) : ℚ :=
  ((rigs.filter (fun r => r.is_active)).map
    (fun r => r.mining_power * r.efficiency_rating)).sum

/-- The SQL function `calculate_offline_rewards` (supabase_config.py
343-378): when the anchor `mining_session_start_at` is null, return 0 and
leave the anchor; otherwise return `total_hashrate * offline_hours * 0.1`
with the hours clamped to 24, and reset the anchor to `now`. The pair is
(returned reward, new anchor). -/
def calculate_offline_rewards (last_session : Option ℚ) (now : ℚ)
    (rigs : List MiningRig) : ℚ × Option ℚ :=
  match last_session with
  | none => (0, none)
  | some last => (total_hashrate rigs * offlineHours last now * 0.1, some now)

/-- The reconciliation part of the `get_game_state` handler (server.py
521-537), for a user whose game state row exists: compute the offline
reward, and only when it is strictly positive add it to both
`current_coins` and `main_balance`. Returns (response state, new DB). -/
def get_game_state (db : UserDB) (now : ℚ) : GameState × UserDB :=
  let offline := calculate_offline_rewards db.mining_session_start_at now db.rigs
  let db1 : UserDB := { db with mining_session_start_at := offline.2 }
  if offline.1 > 0 then
    let gs : GameState := { db1.gameState with
        current_coins := db1.gameState.current_coins + offline.1
        main_balance := db1.gameState.main_balance + offline.1 }
    (gs, { db1 with gameState := gs })
  else
    (db1.gameState, db1)

/-! ## Click action (spec §4.2) -/

/-- Modelled from the spec: the click endpoint (`POST /game/click`) exists
only in the earlier MongoDB variant of the server, which is absent from
this snapshot (only `backend_test.py` exercises it). Per spec §3, the
player-progression fields the click action touches. -/
structure ClickState where
  energy : Int
  click_power : Int
  total_clicks : Int
  balance : ℚ
deriving DecidableEq, Repr

/-- Modelled from the spec: the click handler of the missing MongoDB
variant, per §4.2 — precondition reconciled `energy ≥ clicks`, else fail
with `InsufficientResource` and change nothing; on success
`energy -= clicks`, `total_clicks += clicks`, and
`balance += clicks * click_power * 0.1` (base click yield 0.1). -/
def click_action (s : ClickState) (clicks : Int) : Except String ClickState :=
  if s.energy < clicks then .error "InsufficientResource"
  else .ok { s with
      energy := s.energy - clicks
      total_clicks := s.total_clicks + clicks
      balance := s.balance + ((clicks * s.click_power : ℤ) : ℚ) * 0.1 }

/-! ## Ledger invariant -/

/-- The spec's `Transaction` invariant: every row satisfies
`balance_after == balance_before + amount`. -/
def ledgerOK (l : List Transaction) : Prop :=
  ∀ t ∈ l, t.balance_after = t.balance_before + t.amount

/-! ## Concrete fixtures used by witnesses and counterexamples -/

/-- A user database as created on first access: initial game state, no
records of any kind. -/
def db0 : UserDB :=
  { gameState := initial_game_state
    verifications := []
    ledger := []
    rigs := []
    mining_session_start_at := none }

/-- The stored verification record of the scenario in spec §8:
`"TESTTX001"` verified with amount 100 and bonus 17. -/
def rec0 : VerificationRecord :=
  { transaction_id := "TESTTX001"
    amount := 100
    currency := "USD"
    payment_method := .payeer
    status := "verified"
    bonus_amount := 17 }

/-- The database `db0` after the `"TESTTX001"` verification has been stored. -/
def db1 : UserDB := { db0 with verifications := [rec0] }

/-- The repeat request for the already-verified `"TESTTX001"`. -/
def req0 : VerifyRequest :=
  { transaction_id := "TESTTX001"
    payment_method := .payeer
    amount := some 100
    currency := "USD" }

/-- A fresh valid request (id of length 9, not marked INVALID). -/
def reqFresh : VerifyRequest :=
  { transaction_id := "TESTTX002"
    payment_method := .payeer
    amount := some 100
    currency := "USD" }

/-- The rejected-scenario request of spec §8:
`"INVALID_TRANSACTION_12345"`. -/
def reqInvalid : VerifyRequest :=
  { transaction_id := "INVALID_TRANSACTION_12345"
    payment_method := .payeer
    amount := some 100
    currency := "USD" }

/-- A lowercase-marked id: long enough, does not start with the literal
uppercase marker `"INVALID"`, but uppercases to it. -/
def reqLowercase : VerifyRequest :=
  { transaction_id := "invalid_tx_12345"
    payment_method := .payeer
    amount := some 100
    currency := "USD" }

/-- A game-state update that writes only `energy := -5`. -/
def updEnergyNeg : GameStateUpdate := { energy := some (-5) }

/-- A user with one active basic rig, anchor at epoch 0, and a nonzero
`auto_mining_rate` of 2 coins/minute (so the spec formula and the code
formula disagree). -/
def dbRig : UserDB :=
  { gameState := { initial_game_state with auto_mining_rate := 2 }
    verifications := []
    ledger := []
    rigs := [{ rig_name := "r1"
               rig_type := .basic_cpu
               mining_power := 1
               efficiency_rating := 1
               rarity := "common"
               purchase_price := 100
               is_active := true }]
    mining_session_start_at := some 0 }

/-- A click-state fixture: the spec §8 scenario start
(energy 100, click power 1, balance 0). -/
def clickState0 : ClickState :=
  { energy := 100, click_power := 1, total_clicks := 0, balance := 0 }

/-- A fresh valid request with no amount given (FaucetPay default 5.0). -/
def reqC4 : VerifyRequest :=
  { transaction_id := "PAYTX9876"
    payment_method := .faucetpay
    amount := none
    currency := "USD" }

/-- A fresh valid FaucetPay request used for the ledger-invariant witness. -/
def reqC6 : VerifyRequest :=
  { transaction_id := "FAUCET_TX_999"
    payment_method := .faucetpay
    amount := some 50
    currency := "USD" }

/-- A user whose `main_balance` (5000) differs from `current_coins`
(1000), to expose the overwrite on rig purchase. -/
def dbRichMain : UserDB :=
  { gameState := { initial_game_state with main_balance := 5000 }
    verifications := []
    ledger := []
    rigs := []
    mining_session_start_at := none }

/-! ## Shared lemmas -/

/-- Appending a balanced row to a balanced ledger keeps it balanced. -/
theorem ledgerOK_append (l : List Transaction) (x : Transaction)
    (hl : ledgerOK l) (hx : x.balance_after = x.balance_before + x.amount) :
    ledgerOK (l ++ [x]) := by
  intro t ht
  rcases List.mem_append.mp ht with h | h
  · exact hl t h
  · rw [List.mem_singleton.mp h]
    exact hx

/-! ## The claims -/

/-- C1: if a verification record already exists for (user, transaction_id),
a second call to the verify-transaction operation returns the stored
outcome — same verified flag, status, amount and bonus_amount — and leaves
the whole user state, balances included, unchanged: the external id is
credited at most once. -/
theorem C1_verify_idempotent (db : UserDB) (req : VerifyRequest)
    (v : VerificationRecord)
    (h : findVerification db req.transaction_id = some v) :
    (verify_transaction db req).1.verified = (v.status == "verified") ∧
    (verify_transaction db req).1.status = v.status ∧
    (verify_transaction db req).1.amount = v.amount ∧
    (verify_transaction db req).1.bonus_amount = v.bonus_amount ∧
    (verify_transaction db req).2 = db := by
  simp [verify_transaction, h]

/-- C1 witness: repeating the already-stored `"TESTTX001"` verification
returns the stored outcome and leaves the database untouched. -/
theorem C1_witness :
    (verify_transaction db1 req0).1.verified = (rec0.status == "verified") ∧
    (verify_transaction db1 req0).1.status = rec0.status ∧
    (verify_transaction db1 req0).1.amount = rec0.amount ∧
    (verify_transaction db1 req0).1.bonus_amount = rec0.bonus_amount ∧
    (verify_transaction db1 req0).2 = db1 :=
  C1_verify_idempotent db1 req0 rec0 rfl

/-- C2 counterexample: the save-game-state operation stores the energy
field exactly as sent — saving `energy = -5` against the fresh initial
state (whose invariants all hold) stores the negative value `-5`. -/
theorem C2_counterexample :
    (save_game_state initial_game_state updEnergyNeg).energy = -5 ∧
    (save_game_state initial_game_state updEnergyNeg).energy < 0 := by
  constructor <;> decide

/-- C2 (amended): the save-game-state operation clamps `current_coins` and
`main_balance` at zero (so from a non-negative state they stay
non-negative), but writes the provided `energy` value unclamped, so an
energy below 0 or above max_energy can be stored. -/
theorem C2_save_clamps_balances (gs : GameState) (u : GameStateUpdate)
    (hc : 0 ≤ gs.current_coins) (hm : 0 ≤ gs.main_balance) :
    0 ≤ (save_game_state gs u).current_coins ∧
    0 ≤ (save_game_state gs u).main_balance ∧
    (save_game_state gs u).energy = u.energy.getD gs.energy := by
  refine ⟨?_, ?_, ?_⟩
  · cases h : u.current_coins with
    | none => simpa [save_game_state, h] using hc
    | some v =>
        simp only [save_game_state, h]
        exact_mod_cast le_max_left (0 : ℤ) v
  · cases h : u.main_balance with
    | none => simpa [save_game_state, h] using hm
    | some v =>
        simp only [save_game_state, h]
        exact le_max_left 0 v
  · cases h : u.energy <;> simp [save_game_state, h]

/-- C2 witness: saving the `energy = -5` update against the initial state
keeps the balances non-negative while the stored energy is exactly the
value sent. -/
theorem C2_witness :
    0 ≤ (save_game_state initial_game_state updEnergyNeg).current_coins ∧
    0 ≤ (save_game_state initial_game_state updEnergyNeg).main_balance ∧
    (save_game_state initial_game_state updEnergyNeg).energy
      = updEnergyNeg.energy.getD initial_game_state.energy :=
  C2_save_clamps_balances initial_game_state updEnergyNeg
    (by norm_num [initial_game_state]) (by norm_num [initial_game_state])

/-- C3: for every accepted first-time verification of resolved amount `A`,
the credited bonus equals `round(A * 0.17, 2)` and `current_coins` grows
by exactly `A + bonus`; in particular at `A = 100` the balance grows by
exactly 117. -/
theorem C3_bonus_accuracy (db : UserDB) (req : VerifyRequest)
    (h1 : findVerification db req.transaction_id = none)
    (h2 : is_valid req.transaction_id = true) :
    (verify_transaction db req).1.bonus_amount
        = pyRound2 (resolveAmount req.amount req.payment_method * 0.17) ∧
    (verify_transaction db req).2.gameState.current_coins
        = db.gameState.current_coins
            + resolveAmount req.amount req.payment_method
            + pyRound2 (resolveAmount req.amount req.payment_method * 0.17) ∧
    (resolveAmount req.amount req.payment_method = 100 →
       (verify_transaction db req).2.gameState.current_coins
           = db.gameState.current_coins + 117) := by
  have hb : pyRound2 ((100 : ℚ) * 0.17) = 17 := by
    norm_num [pyRound2, roundHalfEven]
  refine ⟨?_, ?_, ?_⟩
  · simp [verify_transaction, h1, h2]
  · simp [verify_transaction, h1, h2]
    ring
  · intro hA
    simp [verify_transaction, h1, h2, hA, hb]
    norm_num

/-- C3 witness: verifying the fresh valid id `"TESTTX002"` with amount 100
credits bonus `round(17.0, 2)` and raises `current_coins` by 117. -/
theorem C3_witness :
    (verify_transaction db0 reqFresh).1.bonus_amount
        = pyRound2 (resolveAmount reqFresh.amount reqFresh.payment_method * 0.17) ∧
    (verify_transaction db0 reqFresh).2.gameState.current_coins
        = db0.gameState.current_coins
            + resolveAmount reqFresh.amount reqFresh.payment_method
            + pyRound2 (resolveAmount reqFresh.amount reqFresh.payment_method * 0.17) ∧
    (resolveAmount reqFresh.amount reqFresh.payment_method = 100 →
       (verify_transaction db0 reqFresh).2.gameState.current_coins
           = db0.gameState.current_coins + 117) :=
  C3_bonus_accuracy db0 reqFresh rfl (by decide)

/-- C4 counterexample: `"invalid_tx_12345"` has 16 characters and does not
start with the literal marker `"INVALID"`, yet its first-time verification
is rejected — the code uppercases the id before the marker check. -/
theorem C4_counterexample :
    8 ≤ "invalid_tx_12345".length ∧
    ("INVALID".data.isPrefixOf "invalid_tx_12345".data) = false ∧
    (verify_transaction db0 reqLowercase).1.verified = false := by
  refine ⟨by decide, by decide, ?_⟩
  have h2 : is_valid reqLowercase.transaction_id = false := by decide
  simp [verify_transaction, findVerification, db0, h2]

/-- C4 (amended): a first-time verification is accepted iff the id has at
least 8 characters and its uppercased form does not start with
`"INVALID"` — the marker check is case-insensitive — and acceptance
depends on no other part of the request. -/
theorem C4_acceptance (db : UserDB) (req : VerifyRequest)
    (h : findVerification db req.transaction_id = none) :
    (verify_transaction db req).1.verified
      = (decide (8 ≤ req.transaction_id.length)
          && !(("INVALID".data).isPrefixOf
                (req.transaction_id.data.map Char.toUpper))) := by
  have hv : (verify_transaction db req).1.verified = is_valid req.transaction_id := by
    by_cases h2 : is_valid req.transaction_id <;> simp [verify_transaction, h, h2]
  rw [hv, is_valid, pyUpper]

/-- C4 witness: the fresh id `"PAYTX9876"` is accepted, matching the
case-insensitive formula. -/
theorem C4_witness :
    (verify_transaction db0 reqC4).1.verified
      = (decide (8 ≤ reqC4.transaction_id.length)
          && !(("INVALID".data).isPrefixOf
                (reqC4.transaction_id.data.map Char.toUpper))) :=
  C4_acceptance db0 reqC4 rfl

/-- C5: every rejected first-time verification persists a record with
status `"not_found"`, returns `verified = false`, and changes no balance
field: the whole game-state row is untouched. -/
theorem C5_reject_no_credit (db : UserDB) (req : VerifyRequest)
    (h1 : findVerification db req.transaction_id = none)
    (h2 : is_valid req.transaction_id = false) :
    (verify_transaction db req).1.verified = false ∧
    (verify_transaction db req).1.status = "not_found" ∧
    (verify_transaction db req).2.gameState = db.gameState ∧
    (verify_transaction db req).2.verifications
      = db.verifications ++
        [{ transaction_id := req.transaction_id
           amount := resolveAmount req.amount req.payment_method
           currency := req.currency
           payment_method := req.payment_method
           status := "not_found"
           bonus_amount := 0 }] := by
  simp [verify_transaction, h1, h2]

/-- C5 witness: verifying `"INVALID_TRANSACTION_12345"` is rejected with
status `"not_found"` and the game state is unchanged. -/
theorem C5_witness :
    (verify_transaction db0 reqInvalid).1.verified = false ∧
    (verify_transaction db0 reqInvalid).1.status = "not_found" ∧
    (verify_transaction db0 reqInvalid).2.gameState = db0.gameState ∧
    (verify_transaction db0 reqInvalid).2.verifications
      = db0.verifications ++
        [{ transaction_id := reqInvalid.transaction_id
           amount := resolveAmount reqInvalid.amount reqInvalid.payment_method
           currency := reqInvalid.currency
           payment_method := reqInvalid.payment_method
           status := "not_found"
           bonus_amount := 0 }] :=
  C5_reject_no_credit db0 reqInvalid rfl (by decide)

/-- C6: every ledger row written by the verified-deposit credit or by a
mining-rig purchase satisfies `balance_after = balance_before + amount`
(the purchase row's amount being the negated cost), so a balanced ledger
stays balanced through both operations. -/
theorem C6_ledger_invariant (db : UserDB) (req : VerifyRequest)
    (rig_name : String) (t : RigType) (h : ledgerOK db.ledger) :
    ledgerOK (verify_transaction db req).2.ledger ∧
    ledgerOK (create_mining_rig db rig_name t).2.ledger := by
  constructor
  · rcases hf : findVerification db req.transaction_id with _ | v
    · by_cases h2 : is_valid req.transaction_id
      · simp only [verify_transaction, hf, h2, if_true]
        exact ledgerOK_append _ _ h rfl
      · simp only [verify_transaction, hf, h2]
        simpa using h
    · simpa [verify_transaction, hf] using h
  · by_cases hcost : db.gameState.current_coins < (rig_configs t).cost
    · simpa [create_mining_rig, hcost] using h
    · simp only [create_mining_rig, hcost, if_false]
      exact ledgerOK_append _ _ h (sub_eq_add_neg _ _)

/-- C6 witness: starting from an empty (hence balanced) ledger, both a
fresh verification and a basic-CPU purchase leave the ledger balanced. -/
theorem C6_witness :
    ledgerOK (verify_transaction db0 reqC6).2.ledger ∧
    ledgerOK (create_mining_rig db0 "starter" RigType.basic_cpu).2.ledger :=
  C6_ledger_invariant db0 reqC6 "starter" RigType.basic_cpu
    (by simp [ledgerOK, db0])

/-- C7: a click request with `clicks ≤ energy` succeeds, spending exactly
`clicks` energy and crediting `clicks * click_power * 0.1`; a request with
`clicks > energy` fails with the insufficient-resource error and leaves
the state unchanged. -/
theorem C7_click_contract (s : ClickState) (clicks : Int) :
    (clicks ≤ s.energy →
       click_action s clicks
         = .ok { s with
             energy := s.energy - clicks
             total_clicks := s.total_clicks + clicks
             balance := s.balance + ((clicks * s.click_power : ℤ) : ℚ) * 0.1 }) ∧
    (s.energy < clicks →
       click_action s clicks = .error "InsufficientResource") := by
  constructor
  · intro h
    simp [click_action, not_lt.mpr h]
  · intro h
    simp [click_action, h]

/-- C7 witness: from the spec §8 scenario state (energy 100, click power
1), 100 clicks succeed, but 101 clicks fail with the
insufficient-resource error. -/
theorem C7_witness :
    click_action clickState0 100
      = .ok { clickState0 with
          energy := clickState0.energy - 100
          total_clicks := clickState0.total_clicks + 100
          balance := clickState0.balance
              + ((100 * clickState0.click_power : ℤ) : ℚ) * 0.1 } ∧
    click_action clickState0 101 = .error "InsufficientResource" :=
  ⟨(C7_click_contract clickState0 100).1 (by decide),
   (C7_click_contract clickState0 101).2 (by decide)⟩

/-- C8 counterexample: a user with `auto_mining_rate = 2` and one active
rig of hashrate 1, read one hour after the anchor, is credited 0.1 coins
(hashrate × hours × 0.1), not `elapsed_minutes * auto_mining_rate = 120`. -/
theorem C8_counterexample :
    (get_game_state dbRig 3600).2.gameState.current_coins
        = dbRig.gameState.current_coins + 0.1 ∧
    (0.1 : ℚ) ≠ (3600 / 60) * dbRig.gameState.auto_mining_rate := by
  constructor
  · have hr : calculate_offline_rewards dbRig.mining_session_start_at 3600 dbRig.rigs
        = (0.1, some 3600) := by
      norm_num [calculate_offline_rewards, dbRig, total_hashrate, offlineHours]
    norm_num [get_game_state, hr]
  · norm_num [dbRig, initial_game_state]

/-- C8 (amended): on every game-state read the accrual equals
`min(elapsed_hours, 24) × Σ(mining_power × efficiency over active rigs)
× 0.1` — not `elapsed_minutes × auto_mining_rate` — and the stored
balances are credited with it only when it is strictly positive; when the
accrual is zero or negative the stored game state is unchanged. -/
theorem C8_offline_accrual (db : UserDB) (now last : ℚ)
    (h : db.mining_session_start_at = some last) :
    (calculate_offline_rewards db.mining_session_start_at now db.rigs).1
        = total_hashrate db.rigs * offlineHours last now * 0.1 ∧
    (0 < total_hashrate db.rigs * offlineHours last now * 0.1 →
       (get_game_state db now).2.gameState.current_coins
           = db.gameState.current_coins
               + total_hashrate db.rigs * offlineHours last now * 0.1 ∧
       (get_game_state db now).2.gameState.main_balance
           = db.gameState.main_balance
               + total_hashrate db.rigs * offlineHours last now * 0.1) ∧
    (total_hashrate db.rigs * offlineHours last now * 0.1 ≤ 0 →
       (get_game_state db now).2.gameState = db.gameState) := by
  refine ⟨by simp [calculate_offline_rewards, h], ?_, ?_⟩
  · intro hpos
    constructor <;> simp [get_game_state, calculate_offline_rewards, h, hpos]
  · intro hle
    simp [get_game_state, calculate_offline_rewards, h, not_lt.mpr hle]

/-- C8 witness: for the one-rig fixture read one hour after its anchor,
the accrual is the clamped-hours hashrate formula and the positive accrual
is credited to both balances. -/
theorem C8_witness :
    (get_game_state dbRig 3600).2.gameState.current_coins
        = dbRig.gameState.current_coins
            + total_hashrate dbRig.rigs * offlineHours 0 3600 * 0.1 ∧
    (get_game_state dbRig 3600).2.gameState.main_balance
        = dbRig.gameState.main_balance
            + total_hashrate dbRig.rigs * offlineHours 0 3600 * 0.1 :=
  (C8_offline_accrual dbRig 3600 0 rfl).2.1
    (by norm_num [total_hashrate, offlineHours, dbRig])

/-- C9: the offline-reward computation clamps the elapsed hours at 24, so
for rigs of non-negative hashrate the reward is bounded by
`hashrate × 24 × 0.1` no matter how stale the stored anchor is. -/
theorem C9_reward_clamped (last now : ℚ) (rigs : List MiningRig)
    (h : 0 ≤ total_hashrate rigs) :
    offlineHours last now ≤ 24 ∧
    (calculate_offline_rewards (some last) now rigs).1
        ≤ total_hashrate rigs * 24 * 0.1 := by
  refine ⟨min_le_right _ _, ?_⟩
  have hm : offlineHours last now ≤ 24 := min_le_right _ _
  simp only [calculate_offline_rewards]
  nlinarith [mul_nonneg h (sub_nonneg.mpr hm)]

/-- C9 witness: for the one-rig fixture with a maximally stale anchor
(one year before the read), the reward stays within the 24-hour bound. -/
theorem C9_witness :
    offlineHours (-31536000) 3600 ≤ 24 ∧
    (calculate_offline_rewards (some (-31536000)) 3600 dbRig.rigs).1
        ≤ total_hashrate dbRig.rigs * 24 * 0.1 :=
  C9_reward_clamped (-31536000) 3600 dbRig.rigs
    (by norm_num [total_hashrate, dbRig])

/-- C10: a successful mining-rig purchase overwrites `main_balance` with
the new coin balance `current_coins - cost`, regardless of the previous
`main_balance`; afterwards `main_balance` equals `current_coins`. -/
theorem C10_purchase_overwrites_main (db : UserDB) (rig_name : String)
    (t : RigType)
    (h : ¬ db.gameState.current_coins < (rig_configs t).cost) :
    (create_mining_rig db rig_name t).2.gameState.main_balance
        = db.gameState.current_coins - (rig_configs t).cost ∧
    (create_mining_rig db rig_name t).2.gameState.main_balance
        = (create_mining_rig db rig_name t).2.gameState.current_coins := by
  simp [create_mining_rig, h]

/-- C10 witness: with 1000 coins but a main balance of 5000, buying the
100-coin basic CPU leaves `main_balance = current_coins = 900`: the old
main balance is discarded, not debited. -/
theorem C10_witness :
    (create_mining_rig dbRichMain "cpu" RigType.basic_cpu).2.gameState.main_balance
        = dbRichMain.gameState.current_coins - (rig_configs RigType.basic_cpu).cost ∧
    (create_mining_rig dbRichMain "cpu" RigType.basic_cpu).2.gameState.main_balance
        = (create_mining_rig dbRichMain "cpu" RigType.basic_cpu).2.gameState.current_coins :=
  C10_purchase_overwrites_main dbRichMain "cpu" RigType.basic_cpu
    (by norm_num [dbRichMain, initial_game_state, rig_configs])

end Mainet
